import Mathlib

/-!
Verification of the answer-extraction and grading pipeline of the
mateinfoub-with-llm repository, shallowly embedded in Lean 4.

Python strings are modelled as `List Char` (`PyStr`); every string operation
used by the source (`in`, `split`, `strip`, slicing, `startswith`, `endswith`,
`lower`) is transcribed as a structural-recursion function on `List Char` so
that all definitions evaluate inside the kernel.

The sandboxed executor (`script_runner.run_script`) spawns an external
container; its environment is modelled as a function `ExecEnv` from the
prepared script text to the observed outcome (timeout, or completion with
captured stdout/stderr).  Python exceptions are modelled with `Except`.

Python `float()` values are modelled as exact decimal numbers
(an integer numerator and a power-of-ten denominator exponent); the
floating-point rounding of the original is not modelled, `inf`/`nan` and
underscore digit separators are treated as unparseable.
-/

/-- Python strings, modelled as lists of characters. -/
abbrev PyStr := List Char

/-- Shorthand turning a Lean string literal into its `PyStr` model. -/
def S (s : String) : PyStr := s.data

/-- Python whitespace characters recognised by `str.strip()`. -/
def isPyWS (c : Char) : Bool :=
  c = ' ' || c = '\t' || c = '\n' || c = '\x0d' || c = '\x0b' || c = '\x0c'

/-- Python `s.strip()`: remove leading and trailing whitespace. -/
def pyStrip (s : PyStr) : PyStr :=
  ((s.dropWhile isPyWS).reverse.dropWhile isPyWS).reverse

/-- Python `s.startswith(p)`. -/
def pyPre : PyStr → PyStr → Bool
  | [], _ => true
  | _ :: _, [] => false
  | a :: as, b :: bs => a = b && pyPre as bs

/-- Python `s.endswith(p)`. -/
def pySuf (p s : PyStr) : Bool := pyPre p.reverse s.reverse

/-- Python `pat in s`: substring containment. -/
def pyIn (pat : PyStr) : PyStr → Bool
  | [] => pat.isEmpty
  | c :: t => pyPre pat (c :: t) || pyIn pat t

/-- Worker for `pySplit`; `fuel` bounds the recursion depth and is always
given enough budget to scan the whole input. -/
def pySplitGo (sep : PyStr) : Nat → PyStr → PyStr → List PyStr
  | 0, s, acc => [acc.reverse ++ s]
  | fuel + 1, s, acc =>
    if pyPre sep s then
      acc.reverse :: pySplitGo sep fuel (s.drop sep.length) []
    else
      match s with
      | [] => [acc.reverse]
      | c :: t => pySplitGo sep fuel t (c :: acc)

/-- Python `s.split(sep)` for a non-empty separator: split on every
non-overlapping occurrence, scanning left to right. -/
def pySplit (s sep : PyStr) : List PyStr :=
  pySplitGo sep (s.length + 1) s []

/-- Python negative index `l[-1]` (the source only uses it on lists known
to be non-empty). -/
def pyLast (l : List PyStr) : PyStr := l.getLastD []

/-- Python negative index `l[-2]` (the source only uses it on lists known
to have at least two elements). -/
def pyPenultimate (l : List PyStr) : PyStr := l.getD (l.length - 2) []

/-! ## Sandboxed code executor (`src/script_runner.py`) -/

/-- Observable outcome of one containerised execution: either the wall-clock
timeout expired (any partial output being discarded by the caller), or the
process completed with the given captured stdout and stderr. -/
inductive ExecOutcome where
  | timedOut (leftover : PyStr)
  | completed (stdout stderr : PyStr)

/-- The host environment: what happens when a given prepared script file is
run inside the container.  One call of `run_script` performs exactly one
such execution. -/
structure ExecEnv where
  run : PyStr → ExecOutcome

/-- The one exception `run_script` can raise: the known sandbox-runtime
misconfiguration signature was detected on stderr. -/
inductive RunError where
  | misconfig
deriving DecidableEq

/-- Fence stripping performed by `run_script` before writing the script to
the temporary file (`script_runner.py` lines 28-34): strip whitespace, then
drop a leading ```` ```python ````, then a leading ```` ``` ````, then a
trailing ```` ``` ````. -/
def run_script_prepare (script : PyStr) : PyStr :=
  let s := pyStrip script
  let s := if pyPre (S "```python") s then s.drop (S "```python").length else s
  let s := if pyPre (S "```") s then s.drop (S "```").length else s
  let s := if pySuf (S "```") s then s.take (s.length - (S "```").length) else s
  s

/-- `script_runner.run_script`: run the prepared script in the container.
On timeout the container is killed and the in-band sentinel `"Timeout"` is
returned.  Otherwise, if stderr carries the known misconfiguration
signature, an exception is raised; else the stripped stdout is returned. -/
def run_script (env : ExecEnv) (script : PyStr) : Except RunError PyStr :=
  match env.run (run_script_prepare script) with
  | .timedOut _ => .ok (S "Timeout")
  | .completed stdout stderr =>
    if pyIn (S "database static dir") stderr then .error .misconfig
    else .ok (pyStrip stdout)

/-- An environment in which every execution times out. -/
def timeoutEnv : ExecEnv := ⟨fun _ => .timedOut []⟩

/-! ## Python `float()` model -/

/-- An exact decimal number `num / 10 ^ dexp`, the model of a successfully
parsed Python float literal. -/
structure PyFloat where
  num : Int
  dexp : Nat
deriving DecidableEq

/-- Split a character list into its leading run of decimal digits and the
rest. -/
def spanDigits : PyStr → PyStr × PyStr
  | [] => ([], [])
  | c :: cs =>
    if c.isDigit then
      let p := spanDigits cs
      (c :: p.1, p.2)
    else ([], c :: cs)

/-- Numeric value of a digit run. -/
def digitsToNat (ds : PyStr) : Nat := ds.foldl (fun a c => a * 10 + (c.toNat - 48)) 0

/-- Parse an unsigned decimal mantissa (`digits`, `digits.digits?`, or
`.digits`), returning its value and the unconsumed rest. -/
def parseMantissa (cs : PyStr) : Option (PyFloat × PyStr) :=
  let p := spanDigits cs
  match p.2 with
  | '.' :: r2 =>
    let q := spanDigits r2
    if p.1 = [] ∧ q.1 = [] then none
    else some (⟨(digitsToNat p.1) * 10 ^ q.1.length + digitsToNat q.1, q.1.length⟩, q.2)
  | _ => if p.1 = [] then none else some (⟨digitsToNat p.1, 0⟩, p.2)

/-- Apply an exponent part to a mantissa: `e ≥ 0` scales the numerator,
`e < 0` deepens the decimal denominator. -/
def applyExp (m : PyFloat) (eneg : Bool) (e : Nat) : PyFloat :=
  if eneg then ⟨m.num, m.dexp + e⟩ else ⟨m.num * 10 ^ e, m.dexp⟩

/-- Parse the signed digit run of an exponent and require the input to be
exhausted afterwards. -/
def parseExpDigits (m : PyFloat) (r : PyStr) : Option PyFloat :=
  let p : Bool × PyStr :=
    match r with
    | '+' :: r2 => (false, r2)
    | '-' :: r2 => (true, r2)
    | r2 => (false, r2)
  let q := spanDigits p.2
  if q.1 = [] ∨ q.2 ≠ [] then none
  else some (applyExp m p.1 (digitsToNat q.1))

/-- Parse the optional exponent suffix (`e`/`E`, optional sign, digits) and
require the input to be exhausted. -/
def parseExpPart (m : PyFloat) (rest : PyStr) : Option PyFloat :=
  match rest with
  | [] => some m
  | 'e' :: r => parseExpDigits m r
  | 'E' :: r => parseExpDigits m r
  | _ => none

/-- Model of Python `float(s)` on finite decimal literals: optional
whitespace, optional sign, mantissa, optional exponent.  `inf`, `nan` and
underscore separators are not modelled and yield `none`. -/
def pyFloat (s : PyStr) : Option PyFloat :=
  let cs := pyStrip s
  let p : Bool × PyStr :=
    match cs with
    | '+' :: r => (false, r)
    | '-' :: r => (true, r)
    | r => (false, r)
  match parseMantissa p.2 with
  | none => none
  | some (m, rest) =>
    let m := if p.1 then ⟨-m.num, m.dexp⟩ else m
    parseExpPart m rest

/-- The exact rational value of a parsed float. -/
def PyFloat.toRat (a : PyFloat) : ℚ := (a.num : ℚ) / 10 ^ a.dexp

/-- The grader's numeric-tolerance test `abs(good - provided) < 0.01`,
computed exactly by cross-multiplication. -/
def absDiffLtTol (a b : PyFloat) : Bool :=
  decide (|a.num * (10 : Int) ^ b.dexp - b.num * (10 : Int) ^ a.dexp| * 100 <
    (10 : Int) ^ a.dexp * (10 : Int) ^ b.dexp)

/-! ## Answer equivalence grader (`src/compare_answers.py`) -/

/-- Result of one `compare_answers` call: a verdict together with whether the
interactive oracle was consulted, or one of the two exceptions the function
can raise. -/
inductive CompareOutcome where
  | ok (verdict : Bool) (asked : Bool)
  | errNoOracle
  | errInvalidResponse
deriving DecidableEq

/-- The oracle-fallback step of `compare_answers` (lines 50-67): raise if the
caller forbade asking the user, otherwise read one line, strip and lowercase
it, and accept only `y` or `n`. -/
def oracle_step (ask_user : Bool) (user_input : PyStr) : CompareOutcome :=
  if ask_user = false then .errNoOracle
  else
    let answer := (pyStrip user_input).map Char.toLower
    if answer = S "y" then .ok true true
    else if answer = S "n" then .ok false true
    else .errInvalidResponse

/-- `compare_answers.compare_answers`: the cascading equivalence check.
The memoization store (the `matching` / `non_matching` lists loaded from
`answers_matching.json`) and the line the user would type are passed
explicitly. -/
def compare_answers (matching non_matching : List (PyStr × PyStr))
    (good_answer provided_answer : PyStr) (ask_user : Bool) (user_input : PyStr) :
    CompareOutcome :=
  if (good_answer, provided_answer) ∈ matching then .ok true false
  else if (good_answer, provided_answer) ∈ non_matching then .ok false false
  else if good_answer = provided_answer then .ok true false
  else if provided_answer = S "Failed to get answer." ∨ provided_answer = S "Timeout" then
    .ok false false
  else if pyStrip provided_answer = [] then .ok false false
  else
    match pyFloat good_answer, pyFloat provided_answer with
    | some g, some p => .ok (absDiffLtTol g p) false
    | _, _ => oracle_step ask_user user_input

/-! ## Reply parser (`src/internal_types.py`, class `LLMAnswer`) -/

/-- The backend identifier (`llm_interactor.Model`), a string-valued enum. -/
abbrev Model := PyStr

/-- `internal_types.LLMAnswer`: the structured record parsed from one raw
model reply.  `whole_answer` is never `None` on the `from_reply` path, so it
is modelled as a plain string. -/
structure LLMAnswer where
  whole_answer : PyStr
  reasoning : PyStr
  python_code : Option PyStr
  answer : PyStr
  edition : PyStr
  problem_index : Nat
  llm : Model
deriving DecidableEq

deriving instance DecidableEq for Except

/-- The first `try` block of `LLMAnswer.from_reply` (lines 289-303):
extract the text between the reasoning markers; any missing marker degrades
to the reasoning failure sentinel. -/
def extract_reasoning (content : PyStr) : PyStr :=
  if pyIn (S "<REASONING>") content && pyIn (S "</REASONING>") content then
    (pySplit ((pySplit content (S "<REASONING>")).getD 1 []) (S "</REASONING>")).getD 0 []
  else S "Failed to get reasoning."

/-- The code extracted from a well-formed `<PYTHON CODE>` block, after the
fence stripping of `from_reply` (lines 310-321): strip, drop a leading
```` ```python ````, drop a trailing ```` ``` ````, drop a leading
```` ``` ````, strip again. -/
def extracted_python_code (content : PyStr) : PyStr :=
  let c := (pySplit ((pySplit content (S "<PYTHON CODE>")).getD 1 []) (S "</PYTHON CODE>")).getD 0 []
  let c := pyStrip c
  let c := if pyPre (S "```python") c then c.drop (S "```python").length else c
  let c := if pySuf (S "```") c then c.take (c.length - (S "```").length) else c
  let c := if pyPre (S "```") c then c.drop (S "```").length else c
  pyStrip c

/-- The second `try` block of `from_reply` (lines 305-332), returning the
`(python_code, answer)` pair.  Every exception inside the block — a missing
marker assertion as well as the misconfiguration exception raised by
`run_script` — is caught and degrades to `(None, "Failed to get answer.")`. -/
def parse_answer_block (env : ExecEnv) (content : PyStr) : Option PyStr × PyStr :=
  if pyIn (S "<PYTHON CODE>") content then
    if pyIn (S "</PYTHON CODE>") content then
      let code := extracted_python_code content
      match run_script env code with
      | .ok out => (some code, pyStrip out)
      | .error _ => (none, S "Failed to get answer.")
    else (none, S "Failed to get answer.")
  else
    if pyIn (S "<ANSWER>") content && pyIn (S "</ANSWER>") content then
      (none, pyStrip ((pySplit ((pySplit content (S "<ANSWER>")).getD 1 []) (S "</ANSWER>")).getD 0 []))
    else (none, S "Failed to get answer.")

/-- The fenced-block search of `try_extract_python_code` (lines 358-367),
transcribed statement by statement: `python_code` starts as `None`, the
```` ```python ````-tagged branch may set it, then the bare ```` ``` ````
branch may overwrite it (its inner guard re-tests the separator inside a
fragment produced by splitting on that same separator). -/
def salvage_code (wa : PyStr) : Option PyStr :=
  let pc0 : Option PyStr := none
  let pc1 :=
    if pyIn (S "```python") wa then
      let segm := pyLast (pySplit wa (S "```python"))
      if pyIn (S "```") segm then some ((pySplit segm (S "```")).getD 0 []) else pc0
    else pc0
  let pc2 :=
    if pyIn (S "```") wa then
      let segm := pyPenultimate (pySplit wa (S "```"))
      if pyIn (S "```") segm then some ((pySplit segm (S "```")).getD 0 []) else pc1
    else pc1
  pc2

/-- `LLMAnswer.try_extract_python_code` (lines 349-371): the salvage pass.
If a fenced block is recovered, the script is executed *outside* any
`try`, so a `run_script` exception propagates to the caller. -/
def try_extract_python_code (env : ExecEnv) (a : LLMAnswer) : Except RunError LLMAnswer :=
  if a.answer = S "Failed to get answer." ∧ a.python_code = none then
    match salvage_code a.whole_answer with
    | none => .ok a
    | some code =>
      match run_script env code with
      | .error e => .error e
      | .ok out => .ok { a with python_code := some (pyStrip code), answer := pyStrip out }
  else .ok a

/-- `LLMAnswer.from_reply` (lines 277-347): build the record from both
`try` blocks, then run the salvage pass on it. -/
def from_reply (env : ExecEnv) (content edition : PyStr) (problem_index : Nat) (llm : Model) :
    Except RunError LLMAnswer :=
  let reasoning := extract_reasoning content
  let pa := parse_answer_block env content
  let a : LLMAnswer :=
    { whole_answer := content, reasoning := reasoning, python_code := pa.1,
      answer := pa.2, edition := edition, problem_index := problem_index, llm := llm }
  try_extract_python_code env a

/-! ## Batch grading driver (`compare_answers.compute_matchings_for_answers`) -/

/-- A `(reference answer, candidate answer)` pair. -/
abbrev AnswerPair := PyStr × PyStr

/-- The inner `filter_answers` of `compute_matchings_for_answers`
(lines 142-146): keep only pairs recorded in neither list. -/
def filter_answers (matching non_matching : List AnswerPair) (answers : List AnswerPair) :
    List AnswerPair :=
  answers.filter (fun i => decide (i ∉ matching ∧ i ∉ non_matching))

/-- The `while` loop of `compute_matchings_for_answers` (lines 151-163),
returning the successive stores persisted by `save_answers_db`, one per
completed iteration.  `user_input` is the line the human oracle would type
for a given pair; an exception raised by `compare_answers` aborts the loop
with no further persist.  The fuel argument only bounds the recursion: each
iteration removes at least the head pair from the worklist, so the initial
budget `answers.length + 1` is never exhausted. -/
def compute_loop (user_input : AnswerPair → PyStr) :
    Nat → List AnswerPair → List AnswerPair → List AnswerPair →
    List (List AnswerPair × List AnswerPair)
  | 0, _, _, _ => []
  | _ + 1, _, _, [] => []
  | fuel + 1, matching, non_matching, p :: rest =>
    match compare_answers matching non_matching p.1 p.2 true (user_input p) with
    | .ok v _ =>
      let m := if v then (if p ∈ matching then matching else matching ++ [p]) else matching
      let nm := if v then non_matching
        else (if p ∈ non_matching then non_matching else non_matching ++ [p])
      (m, nm) :: compute_loop user_input fuel m nm (filter_answers m nm (p :: rest))
    | _ => []

/-- `compare_answers.compute_matchings_for_answers` (lines 129-163), with
the loaded store and answer list passed explicitly: filter the already
graded pairs, then grade one pair at a time with the oracle enabled,
persisting after every decision.  The loop re-reads the store from disk on
every `compare_answers` call; since the store is saved after every decision,
that read always returns the in-memory lists passed here. -/
def compute_matchings_for_answers (user_input : AnswerPair → PyStr)
    (matching non_matching : List AnswerPair) (answers0 : List AnswerPair) :
    List (List AnswerPair × List AnswerPair) :=
  let answers := filter_answers matching non_matching answers0
  compute_loop user_input (answers.length + 1) matching non_matching answers

/-- The store invariant of the claim: no pair occurs in both the matching
and the non-matching list. -/
def storesDisjoint (matching non_matching : List AnswerPair) : Prop :=
  ∀ p, p ∈ matching → p ∉ non_matching

/-! ## Concrete execution environments and records used in closed statements -/

/-- An environment whose execution always ends with the sandbox-runtime
misconfiguration signature on stderr. -/
def misconfigEnv : ExecEnv := ⟨fun _ => .completed [] (S "Error: database static dir missing")⟩

/-- An environment whose execution always completes printing `1`. -/
def oneEnv : ExecEnv := ⟨fun _ => .completed (S "1\n") []⟩

/-- An environment whose execution always exceeds the wall-clock timeout,
leaving some captured partial output behind. -/
def slowEnv : ExecEnv := ⟨fun _ => .timedOut (S "half-done output")⟩

/-- An environment whose execution completes promptly with a stdout that
strips to exactly the string `Timeout`. -/
def fakeTimeoutEnv : ExecEnv := ⟨fun _ => .completed (S " Timeout\n") (S "no warnings")⟩

/-- A persisted record whose parse failed and whose raw reply contains
runnable code only inside a bare (untagged) fenced block. -/
def c3_record : LLMAnswer :=
  ⟨S "x ```\nprint(7)\n``` y", S "r", none, S "Failed to get answer.", S "e", 0, S "m"⟩

/-! ## General lemmas -/

/-- A list starting with `p ++ q` also starts with `p`. -/
theorem pyPre_append (p q : PyStr) : ∀ s, pyPre (p ++ q) s = true → pyPre p s = true := by
  induction p with
  | nil => intro s _; rfl
  | cons a as ih =>
    intro s h
    cases s with
    | nil => exact absurd h (by simp [pyPre])
    | cons b bs =>
      simp only [List.cons_append, pyPre, Bool.and_eq_true, decide_eq_true_eq] at h ⊢
      exact ⟨h.1, ih bs h.2⟩

/-- A string containing `p ++ q` as a substring also contains `p`. -/
theorem pyIn_mono (p q : PyStr) : ∀ s, pyIn (p ++ q) s = true → pyIn p s = true := by
  intro s
  induction s with
  | nil =>
    simp only [pyIn, List.isEmpty_eq_true, List.append_eq_nil]
    intro h
    simp [h.1]
  | cons c t ih =>
    simp only [pyIn, Bool.or_eq_true]
    rintro (h | h)
    · exact Or.inl (pyPre_append p q _ h)
    · exact Or.inr (ih h)

/-- The cross-multiplied integer tolerance test agrees with the exact
rational statement `abs(a - b) < 1/100`. -/
theorem absDiffLtTol_iff (a b : PyFloat) :
    absDiffLtTol a b = true ↔ |a.toRat - b.toRat| < 1 / 100 := by
  unfold absDiffLtTol PyFloat.toRat
  rw [decide_eq_true_eq]
  have key : (a.num : ℚ) / 10 ^ a.dexp - (b.num : ℚ) / 10 ^ b.dexp =
      ((a.num * 10 ^ b.dexp - b.num * 10 ^ a.dexp : ℤ) : ℚ) /
        ((10 ^ a.dexp * 10 ^ b.dexp : ℤ) : ℚ) := by
    push_cast
    field_simp
    ring
  have hpos : (0 : ℚ) < ((10 ^ a.dexp * 10 ^ b.dexp : ℤ) : ℚ) := by positivity
  rw [key, abs_div, abs_of_pos hpos, div_lt_div_iff₀ hpos (by norm_num : (0 : ℚ) < 100),
    one_mul]
  constructor
  · intro h
    exact_mod_cast h
  · intro h
    exact_mod_cast h

/-- When the memoized, string-equality and sentinel steps all fall through,
`compare_answers` reduces to the numeric-tolerance step with the oracle step
as its fallback. -/
theorem compare_answers_tail (matching non_matching : List AnswerPair)
    (good cand user_input : PyStr) (ask_user : Bool)
    (hm : (good, cand) ∉ matching) (hnm : (good, cand) ∉ non_matching)
    (hne : good ≠ cand)
    (hsent : ¬ (cand = S "Failed to get answer." ∨ cand = S "Timeout"))
    (hstrip : pyStrip cand ≠ []) :
    compare_answers matching non_matching good cand ask_user user_input =
      match pyFloat good, pyFloat cand with
      | some g, some p => .ok (absDiffLtTol g p) false
      | _, _ => oracle_step ask_user user_input := by
  unfold compare_answers
  rw [if_neg hm, if_neg hnm, if_neg hne, if_neg hsent, if_neg hstrip]

/-- Detecting the misconfiguration signature on stderr of a completed
execution makes `run_script` raise. -/
theorem run_script_misconfig (env : ExecEnv) (script stdout stderr : PyStr)
    (hrun : env.run (run_script_prepare script) = .completed stdout stderr)
    (herr : pyIn (S "database static dir") stderr = true) :
    run_script env script = .error .misconfig := by
  unfold run_script
  rw [hrun]
  simp [herr]

/-- A raw reply without any fenced-code marker yields nothing to salvage. -/
theorem salvage_code_none (wa : PyStr) (hfence : pyIn (S "```") wa = false) :
    salvage_code wa = none := by
  have hpy : pyIn (S "```python") wa = false := by
    cases hp : pyIn (S "```python") wa
    · rfl
    · have e : S "```" ++ S "python" = S "```python" := by decide
      rw [← e] at hp
      have := pyIn_mono (S "```") (S "python") wa hp
      rw [hfence] at this
      cases this
  unfold salvage_code
  simp [hpy, hfence]

/-- The salvage pass leaves a record untouched when nothing is recovered. -/
theorem try_extract_nosalvage (env : ExecEnv) (a : LLMAnswer)
    (h : salvage_code a.whole_answer = none) :
    try_extract_python_code env a = .ok a := by
  unfold try_extract_python_code
  by_cases hc : a.answer = S "Failed to get answer." ∧ a.python_code = none
  · rw [if_pos hc, h]
  · rw [if_neg hc]

/-- A well-formed code block whose execution raises the misconfiguration
exception degrades, inside the `try` of `from_reply`, to the failure
sentinel. -/
theorem parse_answer_block_misconfig (env : ExecEnv) (content : PyStr)
    (hpc : pyIn (S "<PYTHON CODE>") content = true)
    (hpc2 : pyIn (S "</PYTHON CODE>") content = true)
    (hrun : run_script env (extracted_python_code content) = .error .misconfig) :
    parse_answer_block env content = (none, S "Failed to get answer.") := by
  unfold parse_answer_block
  simp [hpc, hpc2, hrun]

/-- Pairs surviving `filter_answers` are recorded in neither list. -/
theorem filter_answers_not_mem (m nm : List AnswerPair) (answers : List AnswerPair) :
    ∀ p ∈ filter_answers m nm answers, p ∉ m ∧ p ∉ nm := by
  intro p hp
  unfold filter_answers at hp
  exact of_decide_eq_true (List.mem_filter.mp hp).2

/-- Every store persisted by the grading loop is disjoint, provided the
initial store is disjoint and the worklist contains no already-recorded
pair. -/
theorem compute_loop_disjoint (user_input : AnswerPair → PyStr) :
    ∀ (fuel : Nat) (m nm answers : List AnswerPair),
      storesDisjoint m nm → (∀ p ∈ answers, p ∉ m ∧ p ∉ nm) →
      ∀ s ∈ compute_loop user_input fuel m nm answers, storesDisjoint s.1 s.2 := by
  intro fuel
  induction fuel with
  | zero => intro m nm answers _ _ s hs; cases hs
  | succ fuel ih =>
    intro m nm answers hdisj hans s hs
    cases answers with
    | nil => cases hs
    | cons p rest =>
      rw [compute_loop] at hs
      cases hcmp : compare_answers m nm p.1 p.2 true (user_input p) with
      | ok v asked =>
        rw [hcmp] at hs
        have hp := hans p (List.mem_cons_self p rest)
        cases v with
        | true =>
          simp only [if_pos, if_true, if_neg hp.1] at hs
          have hdisj2 : storesDisjoint (m ++ [p]) nm := by
            intro q hq
            rcases List.mem_append.mp hq with hq | hq
            · exact hdisj q hq
            · rw [List.mem_singleton.mp hq]
              exact hp.2
          rcases List.mem_cons.mp hs with rfl | hs
          · exact hdisj2
          · exact ih (m ++ [p]) nm _ hdisj2 (filter_answers_not_mem _ _ _) s hs
        | false =>
          simp only [if_neg, Bool.false_eq_true, if_false, if_neg hp.2] at hs
          have hdisj2 : storesDisjoint m (nm ++ [p]) := by
            intro q hq hq2
            rcases List.mem_append.mp hq2 with hq2 | hq2
            · exact hdisj q hq hq2
            · rw [List.mem_singleton.mp hq2] at hq
              exact hp.1 hq
          rcases List.mem_cons.mp hs with rfl | hs
          · exact hdisj2
          · exact ih m (nm ++ [p]) _ hdisj2 (filter_answers_not_mem _ _ _) s hs
      | errNoOracle => rw [hcmp] at hs; cases hs
      | errInvalidResponse => rw [hcmp] at hs; cases hs

/-! ## Claim theorems -/

/-- C1, counterexample: a raw reply in which both the `<PYTHON CODE>` and
the `<ANSWER>` blocks are missing, but which carries a ```` ```python ````
fenced block, is salvaged by `from_reply`: the returned record's answer
field is the executed output `1`, not the sentinel `Failed to get
answer.`. -/
theorem c1_counterexample :
    pyIn (S "<PYTHON CODE>") (S "hello ```python\nprint(1)\n``` bye") = false ∧
    pyIn (S "<ANSWER>") (S "hello ```python\nprint(1)\n``` bye") = false ∧
    from_reply oneEnv (S "hello ```python\nprint(1)\n``` bye") (S "e") 0 (S "m") =
      .ok ⟨S "hello ```python\nprint(1)\n``` bye", S "Failed to get reasoning.",
        some (S "print(1)"), S "1", S "e", 0, S "m"⟩ ∧
    S "1" ≠ S "Failed to get answer." := by decide

/-- C1, amended: for every raw reply in which both the code block and the
answer block are missing *and which contains no fenced-code marker for the
salvage pass to pick up*, `from_reply` returns a record — it never raises —
whose answer field is exactly the sentinel `Failed to get answer.` and
whose code field is absent. -/
theorem c1_amended (env : ExecEnv) (content edition : PyStr) (idx : Nat) (llm : Model)
    (hpc : pyIn (S "<PYTHON CODE>") content = false)
    (hans : pyIn (S "<ANSWER>") content = false)
    (hfence : pyIn (S "```") content = false) :
    from_reply env content edition idx llm =
      .ok ⟨content, extract_reasoning content, none, S "Failed to get answer.",
        edition, idx, llm⟩ := by
  have hpa : parse_answer_block env content = (none, S "Failed to get answer.") := by
    unfold parse_answer_block
    simp [hpc, hans]
  unfold from_reply
  rw [hpa]
  exact try_extract_nosalvage env _ (salvage_code_none content hfence)

/-- C1, witness: the amended theorem applied to the blockless, fenceless
reply `I refuse to answer`. -/
theorem c1_witness :
    from_reply oneEnv (S "I refuse to answer") (S "e") 0 (S "m") =
      .ok ⟨S "I refuse to answer", extract_reasoning (S "I refuse to answer"), none,
        S "Failed to get answer.", S "e", 0, S "m"⟩ :=
  c1_amended oneEnv (S "I refuse to answer") (S "e") 0 (S "m") (by decide) (by decide)
    (by decide)

/-- C2, counterexample: with the misconfiguration signature on stderr, the
executor raises, yet the parse that triggered the execution returns
normally — `from_reply` catches the exception in its `try` block and
degrades to the failure sentinel, so the error does *not* propagate out of
the parse. -/
theorem c2_counterexample :
    run_script misconfigEnv
        (extracted_python_code (S "<REASONING>r</REASONING><PYTHON CODE>print(1)</PYTHON CODE>")) =
      .error .misconfig ∧
    from_reply misconfigEnv (S "<REASONING>r</REASONING><PYTHON CODE>print(1)</PYTHON CODE>")
        (S "e") 0 (S "m") =
      .ok ⟨S "<REASONING>r</REASONING><PYTHON CODE>print(1)</PYTHON CODE>", S "r", none,
        S "Failed to get answer.", S "e", 0, S "m"⟩ := by decide

/-- C2, amended: the misconfiguration signature on stderr makes the
executor raise a fatal error that is never the `Timeout` sentinel; a parse
whose delimited code path triggered the execution catches it and degrades
to the failure sentinel rather than propagating it, while a salvage-pass
execution does propagate it out of the parse. -/
theorem c2_amended :
    (∀ (env : ExecEnv) (script stdout stderr : PyStr),
      env.run (run_script_prepare script) = .completed stdout stderr →
      pyIn (S "database static dir") stderr = true →
      run_script env script = .error .misconfig ∧
        run_script env script ≠ .ok (S "Timeout")) ∧
    (∀ (env : ExecEnv) (content edition : PyStr) (idx : Nat) (llm : Model),
      pyIn (S "<PYTHON CODE>") content = true →
      pyIn (S "</PYTHON CODE>") content = true →
      run_script env (extracted_python_code content) = .error .misconfig →
      pyIn (S "```") content = false →
      from_reply env content edition idx llm =
        .ok ⟨content, extract_reasoning content, none, S "Failed to get answer.",
          edition, idx, llm⟩) ∧
    (∀ (env : ExecEnv) (a : LLMAnswer) (code : PyStr),
      a.answer = S "Failed to get answer." → a.python_code = none →
      salvage_code a.whole_answer = some code →
      run_script env code = .error .misconfig →
      try_extract_python_code env a = .error .misconfig) := by
  refine ⟨?_, ?_, ?_⟩
  · intro env script stdout stderr hrun herr
    have h := run_script_misconfig env script stdout stderr hrun herr
    exact ⟨h, by rw [h]; intro hc; cases hc⟩
  · intro env content edition idx llm hpc hpc2 hrun hfence
    have hpa := parse_answer_block_misconfig env content hpc hpc2 hrun
    unfold from_reply
    rw [hpa]
    exact try_extract_nosalvage env _ (salvage_code_none content hfence)
  · intro env a code hans hcode hsalv hrun
    unfold try_extract_python_code
    rw [if_pos ⟨hans, hcode⟩, hsalv]
    show (match run_script env code with
      | Except.error e => Except.error e
      | Except.ok out =>
        Except.ok { a with python_code := some (pyStrip code), answer := pyStrip out }) =
      Except.error RunError.misconfig
    rw [hrun]

/-- C2, witness: the amended theorem applied to `misconfigEnv`, a
marker-delimited code reply, and a failed record whose raw reply carries a
salvageable ```` ```python ```` block. -/
theorem c2_witness :
    (run_script misconfigEnv (S "print(1)") = .error .misconfig ∧
      run_script misconfigEnv (S "print(1)") ≠ .ok (S "Timeout")) ∧
    from_reply misconfigEnv (S "<REASONING>r</REASONING><PYTHON CODE>print(1)</PYTHON CODE>")
        (S "e") 0 (S "m") =
      .ok ⟨S "<REASONING>r</REASONING><PYTHON CODE>print(1)</PYTHON CODE>",
        extract_reasoning (S "<REASONING>r</REASONING><PYTHON CODE>print(1)</PYTHON CODE>"),
        none, S "Failed to get answer.", S "e", 0, S "m"⟩ ∧
    try_extract_python_code misconfigEnv
        ⟨S "x```python\nprint(1)\n```", S "r", none, S "Failed to get answer.", S "e", 0, S "m"⟩ =
      .error .misconfig :=
  ⟨c2_amended.1 misconfigEnv (S "print(1)") [] (S "Error: database static dir missing")
      rfl (by decide),
    c2_amended.2.1 misconfigEnv (S "<REASONING>r</REASONING><PYTHON CODE>print(1)</PYTHON CODE>")
      (S "e") 0 (S "m") (by decide) (by decide) (by decide) (by decide),
    c2_amended.2.2 misconfigEnv
      ⟨S "x```python\nprint(1)\n```", S "r", none, S "Failed to get answer.", S "e", 0, S "m"⟩
      (S "\nprint(1)\n") rfl rfl (by decide) (by decide)⟩

/-- C3: the bare-fence salvage branch is dead code.  `c3_record` has the
failure-sentinel answer, no code, and a raw reply whose only runnable code
sits inside a bare (untagged) fenced block, yet `salvage_code` recovers
nothing and `try_extract_python_code` leaves the record unchanged under any
executor: after splitting the raw reply on the fence marker, the marker can
never occur inside a fragment, so the branch's inner guard is always
false. -/
theorem c3_bare_fence_not_salvaged :
    pyIn (S "```") c3_record.whole_answer = true ∧
    pyIn (S "```python") c3_record.whole_answer = false ∧
    salvage_code c3_record.whole_answer = none ∧
    try_extract_python_code misconfigEnv c3_record = .ok c3_record ∧
    try_extract_python_code oneEnv c3_record = .ok c3_record := by decide

/-- C4, counterexample: the memoized lookup runs before the reflexivity
check, so a store whose non-matching list contains the pair `(a, a)` makes
`compare_answers` return false on the non-empty string `a` compared with
itself. -/
theorem c4_counterexample :
    S "a" ≠ ([] : PyStr) ∧
    compare_answers [] [(S "a", S "a")] (S "a") (S "a") false [] = .ok false false := by decide

/-- C4, amended: for every non-empty string `x`, provided the pair
`(x, x)` is not recorded in the non-matching list of the store in effect,
`compare_answers x x false` returns true without consulting the oracle. -/
theorem c4_amended (matching non_matching : List AnswerPair) (x user_input : PyStr)
    (hne : x ≠ []) (hnm : (x, x) ∉ non_matching) :
    compare_answers matching non_matching x x false user_input = .ok true false := by
  unfold compare_answers
  by_cases hm : (x, x) ∈ matching
  · rw [if_pos hm]
  · rw [if_neg hm, if_neg hnm, if_pos rfl]

/-- C4, witness: the amended theorem applied to `x = 7` and the empty
store. -/
theorem c4_witness :
    compare_answers [] [] (S "7") (S "7") false [] = .ok true false :=
  c4_amended [] [] (S "7") [] (by decide) (by decide)

/-- C5, counterexample: when the reference itself equals the candidate
sentinel, the string-equality step fires first and `compare_answers`
returns true for the known-failure candidate `Timeout`, contradicting the
unconditional claim. -/
theorem c5_counterexample :
    compare_answers [] [] (S "Timeout") (S "Timeout") false [] = .ok true false := by decide

/-- C5, amended: for every reference and every known-failure candidate (the
failure sentinel, `Timeout`, or whitespace-only), provided the pair is not
memoized as matching and the reference differs from the candidate,
`compare_answers` returns false without reaching the oracle step, for any
value of `ask_user`. -/
theorem c5_amended (matching non_matching : List AnswerPair)
    (good cand user_input : PyStr) (ask_user : Bool)
    (hm : (good, cand) ∉ matching) (hne : good ≠ cand)
    (hfail : cand = S "Failed to get answer." ∨ cand = S "Timeout" ∨ pyStrip cand = []) :
    compare_answers matching non_matching good cand ask_user user_input = .ok false false := by
  unfold compare_answers
  rw [if_neg hm]
  by_cases hnm : (good, cand) ∈ non_matching
  · rw [if_pos hnm]
  · rw [if_neg hnm, if_neg hne]
    rcases hfail with h | h | h
    · rw [if_pos (Or.inl h)]
    · rw [if_pos (Or.inr h)]
    · by_cases hs : cand = S "Failed to get answer." ∨ cand = S "Timeout"
      · rw [if_pos hs]
      · rw [if_neg hs, if_pos h]

/-- C5, witness: the amended theorem applied to reference `42`, candidate
`Timeout`, and the empty store, with the oracle permitted. -/
theorem c5_witness :
    compare_answers [] [] (S "42") (S "Timeout") true (S "y") = .ok false false :=
  c5_amended [] [] (S "42") (S "Timeout") (S "y") true (by decide) (by decide)
    (Or.inr (Or.inl rfl))

/-- C6, counterexample: the memoized lookup runs before the numeric
tolerance, so a store whose matching list contains `(1, 5)` makes
`compare_answers` return true although both strings parse as numbers whose
difference is far above 0.01. -/
theorem c6_counterexample :
    compare_answers [(S "1", S "5")] [] (S "1") (S "5") false [] = .ok true false ∧
    pyFloat (S "1") = some ⟨1, 0⟩ ∧ pyFloat (S "5") = some ⟨5, 0⟩ ∧
    ¬ |PyFloat.toRat ⟨1, 0⟩ - PyFloat.toRat ⟨5, 0⟩| < 1 / 100 := by
  refine ⟨by decide, by decide, by decide, ?_⟩
  norm_num [PyFloat.toRat]

/-- C6, amended: whenever the two answers are unequal as strings, neither
is a known-failure candidate, *and the pair is not in the memoization
store*, then if both parse as numbers `compare_answers` returns true
exactly when the absolute difference of the parsed values is below 0.01
(without consulting the oracle), and if either fails to parse the grader
falls through to the oracle step rather than erroring. -/
theorem c6_amended (matching non_matching : List AnswerPair)
    (good cand user_input : PyStr) (ask_user : Bool)
    (hm : (good, cand) ∉ matching) (hnm : (good, cand) ∉ non_matching)
    (hne : good ≠ cand)
    (hgood : ¬ (good = S "Failed to get answer." ∨ good = S "Timeout" ∨ pyStrip good = []))
    (hcand : ¬ (cand = S "Failed to get answer." ∨ cand = S "Timeout" ∨ pyStrip cand = [])) :
    (∀ a b, pyFloat good = some a → pyFloat cand = some b →
      (compare_answers matching non_matching good cand ask_user user_input = .ok true false ↔
        |a.toRat - b.toRat| < 1 / 100)) ∧
    ((pyFloat good = none ∨ pyFloat cand = none) →
      compare_answers matching non_matching good cand ask_user user_input =
        oracle_step ask_user user_input) := by
  have hsent : ¬ (cand = S "Failed to get answer." ∨ cand = S "Timeout") := by tauto
  have hstrip : pyStrip cand ≠ [] := by tauto
  rw [compare_answers_tail matching non_matching good cand user_input ask_user
    hm hnm hne hsent hstrip]
  constructor
  · intro a b ha hb
    rw [ha, hb]
    show CompareOutcome.ok (absDiffLtTol a b) false = CompareOutcome.ok true false ↔ _
    simp only [CompareOutcome.ok.injEq, and_true]
    exact absDiffLtTol_iff a b
  · rintro (h | h)
    · rw [h]
    · rw [h]
      cases hg : pyFloat good <;> rfl

/-- C6, witness: the amended theorem applied to the numeric pair
`3.14` / `3.1401` (difference `0.0001`, graded equivalent) and to the
non-numeric pair `x` / `yy` (falls through to the oracle step). -/
theorem c6_witness :
    compare_answers [] [] (S "3.14") (S "3.1401") false [] = .ok true false ∧
    compare_answers [] [] (S "x") (S "yy") false [] = oracle_step false [] := by
  constructor
  · exact ((c6_amended [] [] (S "3.14") (S "3.1401") [] false (by decide) (by decide)
      (by decide) (by decide) (by decide)).1 ⟨314, 2⟩ ⟨31401, 4⟩ (by decide) (by decide)).mpr
      (by
        norm_num [PyFloat.toRat]
        rw [abs_of_pos (by norm_num : (0 : ℚ) < 1 / 10000)]
        norm_num)
  · exact (c6_amended [] [] (S "x") (S "yy") [] false (by decide) (by decide) (by decide)
      (by decide) (by decide)).2 (Or.inl (by decide))

/-- C7: a pair that reaches the oracle-fallback step — not memoized, not
string-equal, candidate not a known-failure sentinel, not resolved by
numeric tolerance — makes `compare_answers` with `ask_user = false` raise
instead of returning a verdict. -/
theorem c7_no_oracle (matching non_matching : List AnswerPair)
    (good cand user_input : PyStr)
    (hm : (good, cand) ∉ matching) (hnm : (good, cand) ∉ non_matching)
    (hne : good ≠ cand)
    (hsent : ¬ (cand = S "Failed to get answer." ∨ cand = S "Timeout"))
    (hstrip : pyStrip cand ≠ [])
    (hfloat : pyFloat good = none ∨ pyFloat cand = none) :
    compare_answers matching non_matching good cand false user_input = .errNoOracle := by
  rw [compare_answers_tail matching non_matching good cand user_input false
    hm hnm hne hsent hstrip]
  rcases hfloat with h | h
  · rw [h]
    rfl
  · rw [h]
    cases hg : pyFloat good <;> rfl

/-- C7, witness: the theorem applied to the ambiguous pair `ab` / `cd` on
the empty store. -/
theorem c7_witness :
    compare_answers [] [] (S "ab") (S "cd") false [] = .errNoOracle :=
  c7_no_oracle [] [] (S "ab") (S "cd") [] (by decide) (by decide) (by decide) (by decide)
    (by decide) (Or.inl (by decide))

/-- C8: whenever the sandboxed execution exceeds the wall-clock timeout,
`run_script` returns the string `Timeout` — it neither raises nor returns
the partial captured output (the `timedOut` outcome's leftover text is
discarded). -/
theorem c8_timeout (env : ExecEnv) (script leftover : PyStr)
    (h : env.run (run_script_prepare script) = .timedOut leftover) :
    run_script env script = .ok (S "Timeout") := by
  unfold run_script
  rw [h]

/-- C8, witness: the theorem applied to an environment that always times
out with non-trivial partial output. -/
theorem c8_witness :
    run_script slowEnv (S "import time; time.sleep(60)") = .ok (S "Timeout") :=
  c8_timeout slowEnv (S "import time; time.sleep(60)") (S "half-done output") rfl

/-- C9: starting from any disjoint store, every store persisted by the
batch driver `compute_matchings_for_answers` — one per grading decision —
is again disjoint: each newly graded pair is appended to exactly one of the
two lists. -/
theorem c9_invariant (user_input : AnswerPair → PyStr)
    (matching non_matching : List AnswerPair) (answers : List AnswerPair)
    (hdisj : storesDisjoint matching non_matching) :
    ∀ s ∈ compute_matchings_for_answers user_input matching non_matching answers,
      storesDisjoint s.1 s.2 := by
  unfold compute_matchings_for_answers
  exact compute_loop_disjoint user_input _ _ _ _ hdisj (filter_answers_not_mem _ _ _)

/-- C9, witness: the theorem applied to the empty store and the single
oracle-graded pair `(x, yy)`, whose persisted store is
`([(x, yy)], [])`. -/
theorem c9_witness :
    (S "x", S "yy") ∉ ([] : List AnswerPair) := by
  have h := c9_invariant (fun _ => S "y") [] [] [(S "x", S "yy")]
    (fun p hp => absurd hp (List.not_mem_nil p))
    ([(S "x", S "yy")], []) (by decide)
  exact h (S "x", S "yy") (by decide)

/-- C10: a script that completes within the timeout but whose stripped
stdout is exactly `Timeout` makes `run_script` return the very value it
returns for a timed-out execution, so callers cannot distinguish the two
outcomes. -/
theorem c10_collision (env : ExecEnv) (script stdout stderr : PyStr)
    (hrun : env.run (run_script_prepare script) = .completed stdout stderr)
    (herr : pyIn (S "database static dir") stderr = false)
    (hout : pyStrip stdout = S "Timeout") :
    run_script env script = .ok (S "Timeout") ∧
    run_script env script = run_script timeoutEnv script := by
  have h1 : run_script env script = .ok (S "Timeout") := by
    unfold run_script
    rw [hrun]
    simp [herr, hout]
  exact ⟨h1, by rw [h1]; rfl⟩

/-- C10, witness: the theorem applied to an environment that completes
promptly printing ` Timeout`. -/
theorem c10_witness :
    run_script fakeTimeoutEnv (S "print(42)") = .ok (S "Timeout") ∧
    run_script fakeTimeoutEnv (S "print(42)") = run_script timeoutEnv (S "print(42)") :=
  c10_collision fakeTimeoutEnv (S "print(42)") (S " Timeout\n") (S "no warnings") rfl
    (by decide) (by decide)
